import Mathlib

/-!
Verification of the conversational task-routing engine of the
Full-Stack-AI-MultiAgent-Marketplace-Chatbot repository.

The Python source under `backend/app` is shallowly embedded here:

* `backend/app/rag/pipeline.py`     → document chunking (`chunkText`)
* `backend/app/rag/vector_store.py` → `VectorStore` with `add_documents`,
  `search`, `save`/`load`
* `backend/app/services/llm_service.py` → `generate_response`,
  `generate_with_history`, `classify_intent`,
  `simple_intent_classification`, `fallback_response`
* `backend/app/agents/intent_classifier.py` → `extract_order_id`,
  `extract_product_ids`
* `backend/app/agents/orchestrator.py` → `add_to_history`,
  `get_recent_history`, `route_to_handler`, `generate_response_text`,
  `process_message`
* `backend/app/tools/*.py`, `backend/app/db/data_store.py` → the handler
  functions over in-memory record lists

Python strings are modelled as Lean `String` (sequences of characters,
manipulated through `String.data`); floating point numbers are modelled
as rationals `ℚ`; Python dicts with a fixed key set are modelled as
structures, an absent key being `Option.none`.  External calls (the
OpenAI chat API, the embedding service inside `rag_pipeline.retrieve`,
the Neo4j `compare_products`) are modelled as function-valued fields of
an `Env` record returning `Except`, an exception being `Except.error`.
Python dict fields that no modelled code path ever reads (timestamps,
item lists, tracking summaries, the `metadata` field of responses) are
omitted from the corresponding structures.
-/

set_option maxRecDepth 4000

namespace Marketplace

/-! ### Python primitives used by the source -/

/-- ASCII lower-casing of one character, modelling `str.lower()` on the
ASCII alphabet actually used by the keyword tables. -/
def asciiLower (c : Char) : Char :=
  if 'A' ≤ c ∧ c ≤ 'Z' then Char.ofNat (c.toNat + 32) else c

/-- `message.lower()`. -/
def strLower (s : String) : String := ⟨s.data.map asciiLower⟩

/-- Whitespace characters stripped by `str.strip()`. -/
def isPyWs (c : Char) : Bool := c = ' ' || c = '\t' || c = '\n' || c = '\r'

/-- `s.strip()`: remove whitespace from both ends. -/
def strStrip (s : String) : String :=
  ⟨((s.data.dropWhile isPyWs).reverse.dropWhile isPyWs).reverse⟩

/-- Python's substring test `needle in hay`. -/
def containsSub (hay needle : String) : Bool :=
  hay.data.tails.any (fun t => needle.data.isPrefixOf t)

/-- Python `range(0, stop, step)` for a positive `step`. -/
def pyRange (stop step : ℕ) : List ℕ :=
  List.range' 0 ((stop + step - 1) / step) step

/-- Python slice `l[a:b]` for `0 ≤ a ≤ b`. -/
def pySlice {α : Type} (l : List α) (a b : ℕ) : List α :=
  (l.drop a).take (b - a)

/-- Python slice `l[-k:]` (the last `k` elements; the whole list when
`k = 0`, because `l[-0:]` is `l[0:]`). -/
def pyTail {α : Type} (l : List α) (k : ℕ) : List α :=
  if k = 0 then l else l.drop (l.length - k)

/-! ### Retrieval pipeline: chunking (`pipeline.py`, `_chunk_documents`) -/

/-- The chunking loop of `_chunk_documents` applied to the text of one
document: `for i in range(0, len(text), chunk_size - overlap):
chunk_text = text[i:i + chunk_size]`. -/
def chunkText (text : String) (chunk_size overlap : ℕ) : List String :=
  (pyRange text.data.length (chunk_size - overlap)).map
    (fun i => ⟨pySlice text.data i (i + chunk_size)⟩)

/-! ### Vector index (`vector_store.py`) -/

/-- Chunk metadata as built by `_chunk_documents`: `doc_type`, `title`,
`product_id`, `category` (the latter two may be `None`). -/
structure ChunkMetadata where
  doc_type : String
  title : String
  product_id : Option ℕ
  category : Option String
deriving DecidableEq, Inhabited

/-- The state of `VectorStore`: the FAISS `IndexFlatL2` is its list of
stored vectors, plus the parallel `documents`/`metadata` lists and the
dimension.  (`store_path` is file-system configuration and not part of
the observable state.) -/
structure VectorStore where
  dimension : ℕ
  vectors : List (List ℚ)
  documents : List String
  metadata : List ChunkMetadata
deriving DecidableEq

/-- `add_documents`.  The source returns early (a no-op) when
`embeddings` or `documents` is empty; otherwise it adds to the FAISS
index and extends the two parallel lists.  `faiss.IndexFlatL2.add`
raises when a vector does not have the index dimension (as does the
`np.array` conversion on ragged input); that failure is the
`Except.error` branch. -/
def add_documents (s : VectorStore) (embeddings : List (List ℚ))
    (documents : List String) (metadata : List ChunkMetadata) :
    Except String VectorStore :=
  if embeddings.isEmpty || documents.isEmpty then .ok s
  else if embeddings.all (fun v => v.length = s.dimension) then
    .ok { s with
          vectors := s.vectors ++ embeddings,
          documents := s.documents ++ documents,
          metadata := s.metadata ++ metadata }
  else .error "embedding dimension mismatch"

/-- Squared Euclidean distance, the metric of `faiss.IndexFlatL2`. -/
def sqDist (q v : List ℚ) : ℚ :=
  (List.zipWith (fun a b => (a - b) ^ 2) q v).sum

/-- `search`.  An empty index returns `[]` at once (before any FAISS
call, so for any query and any `top_k`).  Otherwise the FAISS
`IndexFlatL2` search is consulted: its Python wrapper asserts that the
query has the index dimension, and `IndexFlat::search` throws unless
the requested neighbour count `min(top_k, ntotal)` is positive; both
raises are `Except.error`s.  The exact search then returns the
`min(top_k, ntotal)` stored vectors of smallest squared Euclidean
distance in ascending distance order together with their insertion
indices (ties ordered arbitrarily by FAISS; this model keeps insertion
order).  The Python loop keeps rows with `idx < len(self.documents)`
and reads `self.documents[idx]` and `self.metadata[idx]`; a kept index
outside `self.metadata` (possible on stores built with unequal-length
`add_documents` inputs) raises `IndexError`, discarding all results —
the final error branch. -/
def search (s : VectorStore) (query_embedding : List ℚ) (top_k : ℕ) :
    Except String (List (String × ChunkMetadata × ℚ)) :=
  if s.vectors.length = 0 then .ok []
  else if query_embedding.length ≠ s.dimension then
    .error "query dimension does not match index dimension"
  else if min top_k s.vectors.length = 0 then
    .error "the number of requested neighbours must be positive"
  else
    let pairs := (s.vectors.map (sqDist query_embedding)).enum
    let sorted := List.insertionSort (fun a b => a.2 ≤ b.2) pairs
    let taken := sorted.take (min top_k s.vectors.length)
    let kept := taken.filter (fun p => p.1 < s.documents.length)
    if kept.all (fun p => p.1 < s.metadata.length) then
      .ok (kept.map (fun p =>
        (s.documents.getD p.1 "", s.metadata.getD p.1 default, p.2)))
    else .error "metadata index out of range"

/-- The `index.faiss` file written by `save`: the FAISS index state. -/
structure SavedIndex where
  vectors : List (List ℚ)
deriving DecidableEq

/-- The `data.pkl` file written by `save`: documents, metadata and
dimension. -/
structure SavedData where
  documents : List String
  metadata : List ChunkMetadata
  dimension : ℕ
deriving DecidableEq

/-- `save`: persist the FAISS index and the pickled
documents/metadata/dimension record. -/
def save (s : VectorStore) : SavedIndex × SavedData :=
  (⟨s.vectors⟩, ⟨s.documents, s.metadata, s.dimension⟩)

/-- `load`: rebuild the store state from the two persisted files. -/
def load (si : SavedIndex) (sd : SavedData) : VectorStore :=
  { dimension := sd.dimension,
    vectors := si.vectors,
    documents := sd.documents,
    metadata := sd.metadata }

/-! ### Messages and session memory (`orchestrator.py`) -/

/-- A `{"role": ..., "content": ...}` dict, used both for the session
log and for the message lists sent to the chat model. -/
structure Message where
  role : String
  content : String
deriving DecidableEq, Inhabited

/-- `_add_to_history`: append, then trim to the last
`max_history * 2` entries when the log got longer than that. -/
def add_to_history (max_history : ℕ) (hist : List Message)
    (role content : String) : List Message :=
  let h := hist ++ [⟨role, content⟩]
  if max_history * 2 < h.length then pyTail h (max_history * 2) else h

/-- `_get_recent_history`: `history[-max_messages:]` when longer than
`max_messages`, otherwise the whole log. -/
def get_recent_history (hist : List Message) (max_messages : ℕ) : List Message :=
  if max_messages < hist.length then pyTail hist max_messages else hist

/-! ### LLM service (`llm_service.py`) -/

/-- `_fallback_response`, returned whenever the chat model is absent or
its call fails. -/
def fallback_response : String :=
  "I\x27m currently operating in limited mode. I can help you with product information, orders, and more. Please provide your order ID or ask about specific products."

/-- The default system message of `generate_response`. -/
def default_system_message : String :=
  "You are a helpful AI assistant for an electronics e-commerce platform. Provide accurate, concise, and friendly responses."

/-- The classification instruction prompt of `classify_intent`. -/
def classify_system_message : String :=
  "You are an intent classifier for an e-commerce chatbot.\nClassify the user\x27s message into one of these intents:\n- product_info: Questions about products, features, specifications\n- order_status: Tracking orders, order information\n- complaint: Issues, problems, complaints about products or service\n- refund: Return requests, refund inquiries\n- delivery: Shipping, delivery tracking, delivery issues\n- comparison: Comparing multiple products\n- general: General questions, greetings, other\n\nRespond with ONLY the intent name, nothing else."

/-- The closed intent set of `classify_intent`. -/
def valid_intents : List String :=
  ["product_info", "order_status", "complaint",
   "refund", "delivery", "comparison", "general"]

/-- `_simple_intent_classification`: ordered keyword matching over the
lower-cased message; the first matching category wins. -/
def simple_intent_classification (message : String) : String :=
  let m := strLower message
  if ["order", "track", "ord-"].any (fun w => containsSub m w) then
    "order_status"
  else if ["problem", "issue", "complaint", "broken", "damaged",
           "not working"].any (fun w => containsSub m w) then
    "complaint"
  else if ["refund", "return", "money back"].any (fun w => containsSub m w) then
    "refund"
  else if ["delivery", "shipping", "deliver",
           "when will"].any (fun w => containsSub m w) then
    "delivery"
  else if ["compare", "vs", "versus",
           "difference between"].any (fun w => containsSub m w) then
    "comparison"
  else if ["laptop", "phone", "tv", "product", "specs", "features",
           "price"].any (fun w => containsSub m w) then
    "product_info"
  else
    "general"

/-! ### Extraction helpers (`intent_classifier.py`) -/

/-- One attempt of the regex `ORD-\d\x7b4\x7d` at the head of a
character list. -/
def ordMatchAt : List Char → Option String
  | 'O' :: 'R' :: 'D' :: '-' :: d1 :: d2 :: d3 :: d4 :: _ =>
    if d1.isDigit && d2.isDigit && d3.isDigit && d4.isDigit then
      some ⟨['O', 'R', 'D', '-', d1, d2, d3, d4]⟩
    else none
  | _ => none

/-- Left-to-right scan for the first `ORD-\d\x7b4\x7d` match. -/
def extractOrderIdAux : List Char → String
  | [] => ""
  | c :: rest =>
    match ordMatchAt (c :: rest) with
    | some s => s
    | none => extractOrderIdAux rest

/-- `extract_order_id`: `re.findall(r"ORD-\d\x7b4\x7d", message)` and
take the first match, else `""`. -/
def extract_order_id (message : String) : String :=
  extractOrderIdAux message.data

/-- All `ORD-\d\x7b4\x7d` matches enumerated by start position.  This is
the declarative reading of the regex, used to state what
`extract_order_id` computes. -/
def ordIdMatches (message : String) : List String :=
  (List.range message.data.length).filterMap
    (fun i => ordMatchAt (message.data.drop i))

/-- Regex word characters, for the `\b` boundaries of `\b\d+\b`. -/
def wordChar (c : Char) : Bool := c.isAlpha || c.isDigit || c = '_'

/-- The maximal digit run starting at position `i`, provided both `\b`
boundaries of `\b\d+\b` hold there. -/
def numberRunAt (cs : List Char) (i : ℕ) : Option String :=
  match cs.drop i with
  | [] => none
  | c :: rest =>
    if c.isDigit && ((i == 0) || !wordChar (cs.getD (i - 1) ' ')) then
      let run := (c :: rest).takeWhile Char.isDigit
      match ((c :: rest).drop run.length).head? with
      | none => some ⟨run⟩
      | some d => if wordChar d then none else some ⟨run⟩
    else none

/-- Python `int` on a digit string. -/
def digitsToNat (cs : List Char) : ℕ :=
  cs.foldl (fun acc c => acc * 10 + (c.toNat - 48)) 0

/-- `extract_product_ids`: integers matching `\b\d+\b` kept when within
`1 ≤ n ≤ 100`. -/
def extract_product_ids (message : String) : List ℕ :=
  (((List.range message.data.length).filterMap
      (fun i => numberRunAt message.data i)).map
    (fun t => digitsToNat t.data)).filter (fun n => 1 ≤ n && n ≤ 100)

/-! ### Domain records (`db/data_store.py` contents, as read by the tools) -/

/-- An order record, restricted to the fields the modelled handlers
read (`order_id`, `status`, `total`, `expected_delivery`). -/
structure Order where
  order_id : String
  status : String
  total : ℚ
  expected_delivery : Option String := none
deriving DecidableEq

/-- A refund record, restricted to the fields the refund tool reads. -/
structure Refund where
  order_id : String
  amount : ℚ
  status : String
  expected_completion : Option String := none
deriving DecidableEq

/-- A delivery record, restricted to the fields used in the tracking
message. -/
structure Delivery where
  order_id : String
  current_status : String
  estimated_delivery : String
  tracking_number : String
  carrier : String
deriving DecidableEq

/-- One product row of a `compare_products` result; only `name` is read
by the response composer. -/
structure ProductRow where
  name : String
deriving DecidableEq

/-- The result of the comparison collaborator
(`graph_db.compare_products`); the per-feature table is never read by
the composer and is omitted. -/
structure Comparison where
  products : List ProductRow
  recommendation : String
deriving DecidableEq

/-- `data_store.get_order`: first order whose `order_id` matches. -/
def get_order (orders : List Order) (order_id : String) : Option Order :=
  orders.find? (fun o => o.order_id = order_id)

/-- `data_store.get_refund`: first refund for the order. -/
def get_refund (refunds : List Refund) (order_id : String) : Option Refund :=
  refunds.find? (fun r => r.order_id = order_id)

/-- `data_store.get_delivery_status`: first delivery for the order. -/
def get_delivery (deliveries : List Delivery) (order_id : String) :
    Option Delivery :=
  deliveries.find? (fun d => d.order_id = order_id)

/-- Fixed-point rendering of `f"$\x7bamount:.2f\x7d"` (two decimal
places, rounding to nearest). -/
def format2f (q : ℚ) : String :=
  let n := (⌊q * 100 + 1 / 2⌋).toNat
  toString (n / 100) ++ "." ++ (if n % 100 < 10 then "0" else "") ++
    toString (n % 100)

/-! ### Handler result bags and the environment of external calls -/

/-- A handler result dict, restricted to the keys that
`_generate_response` and `process_message` read.  `none` models an
absent key.  `sources` is doubly optional: the key may be absent
(`none`), or present holding `None` (`some none`) or a list
(`some (some l)`). -/
structure HandlerData where
  success : Option Bool := none
  message : Option String := none
  context : Option String := none
  comparison : Option Comparison := none
  order_id : Option String := none
  status : Option String := none
  sources : Option (Option (List String)) := none
deriving DecidableEq

/-- The external collaborators and stored data visible to one
`process_message` call.  `chat` is the OpenAI chat-completion call
(`client` is `False` when `OPENAI_API_KEY` is unset and the service has
no client); `ragRetrieve` is `rag_pipeline.retrieve` (it embeds the
query, an external call, then searches the index);
`compareProducts` is `graph_db.compare_products`.  An `Except.error`
is a raised exception. -/
structure Env where
  client : Bool
  chat : List Message → Except String String
  ragRetrieve : String → ℕ → Except String (List (String × ChunkMetadata × ℚ))
  compareProducts : List ℕ → Except String Comparison
  orders : List Order := []
  refunds : List Refund := []
  deliveries : List Delivery := []
  complaintCounter : ℕ := 100
  refundCounter : ℕ := 100

/-! ### LLM generation and intent classification (`llm_service.py`) -/

/-- `generate_response`: build the message list and call the model;
when the client is absent or the call raises, return the canned
fallback. -/
def generate_response (env : Env) (prompt : String)
    (context : Option String) (system_message : Option String) : String :=
  if !env.client then fallback_response
  else
    let msgs :=
      [⟨"system", system_message.getD default_system_message⟩] ++
      (match context with
       | some c => [Message.mk "system" ("Context information:\n" ++ c)]
       | none => []) ++
      [⟨"user", prompt⟩]
    match env.chat msgs with
    | .ok r => strStrip r
    | .error _ => fallback_response

/-- `generate_with_history`: call the model on an explicit message
list, falling back on absence or failure. -/
def generate_with_history (env : Env) (messages : List Message) : String :=
  if !env.client then fallback_response
  else
    match env.chat messages with
    | .ok r => strStrip r
    | .error _ => fallback_response

/-- The message list `classify_intent` sends to the model. -/
def classify_messages (message : String) : List Message :=
  [⟨"system", classify_system_message⟩, ⟨"user", message⟩]

/-- `classify_intent`: keyword fallback when no client; otherwise ask
the model through `generate_response` (which already converts a raised
call into the fallback string), normalise, and coerce anything outside
the closed set to `general`.  The `except` clause of the source is
unreachable: `generate_response` never raises. -/
def classify_intent (env : Env) (message : String) : String :=
  if !env.client then simple_intent_classification message
  else
    let response := generate_response env message none (some classify_system_message)
    let intent := strLower (strStrip response)
    if valid_intents.contains intent then intent else "general"

/-! ### Tools (`tools/*.py`) -/

/-- `order_tool.get_order_status`. -/
def get_order_status (env : Env) (order_id : String) : HandlerData :=
  match get_order env.orders order_id with
  | none =>
    { success := some false,
      message := some ("Order " ++ order_id ++ " not found. Please check the order ID.") }
  | some o =>
    let base := "Order " ++ order_id ++ " is currently " ++ o.status ++ "."
    { success := some true,
      order_id := some o.order_id,
      status := some o.status,
      message := some (match o.expected_delivery with
        | some ed => base ++ " Expected delivery: " ++ ed
        | none => base) }

/-- `complaint_tool.create_complaint` (the new complaint id comes from
the store's counter; the record fields of the created complaint that
the message does not mention are omitted). -/
def create_complaint (env : Env) (order_id : String) : HandlerData :=
  match get_order env.orders order_id with
  | none =>
    { success := some false,
      message := some ("Order " ++ order_id ++ " not found. Cannot create complaint.") }
  | some _ =>
    let cid := "CMP-" ++ toString (env.complaintCounter + 1)
    { success := some true,
      order_id := some order_id,
      status := some "open",
      message := some ("I\x27m sorry to hear about the issue with your order. I\x27ve created complaint " ++ cid ++ ". Our support team will contact you within 24 hours to resolve this.") }

/-- `refund_tool.get_refund_status`. -/
def refund_status (env : Env) (order_id : String) : HandlerData :=
  match get_refund env.refunds order_id with
  | none =>
    match get_order env.orders order_id with
    | none =>
      { success := some false,
        message := some ("Order " ++ order_id ++ " not found.") }
    | some _ =>
      { success := some true,
        message := some ("No refund request found for order " ++ order_id ++ ". Would you like to initiate a return?") }
  | some r =>
    let base :=
      if r.status = "pending" then "Your refund request is being processed."
      else if r.status = "approved" then "Your refund has been approved and is being processed."
      else if r.status = "processed" then "Your refund of $" ++ format2f r.amount ++ " has been processed."
      else if r.status = "completed" then "Your refund of $" ++ format2f r.amount ++ " has been completed."
      else "Refund status: " ++ r.status
    { success := some true,
      message := some (match r.expected_completion with
        | some ec => base ++ " Expected completion: " ++ ec
        | none => base) }

/-- `refund_tool.initiate_refund`. -/
def initiate_refund (env : Env) (order_id : String) : HandlerData :=
  match get_order env.orders order_id with
  | none =>
    { success := some false,
      message := some ("Order " ++ order_id ++ " not found.") }
  | some o =>
    match get_refund env.refunds order_id with
    | some r =>
      { success := some false,
        message := some ("A refund request already exists for order " ++ order_id ++ " (Status: " ++ r.status ++ ")") }
    | none =>
      let rid := "REF-" ++ toString (env.refundCounter + 1)
      { success := some true,
        message := some ("Refund request " ++ rid ++ " has been initiated. Your refund of $" ++ format2f o.total ++ " will be processed within 5-7 business days.") }

/-- `delivery_tool.get_delivery_status`. -/
def delivery_status (env : Env) (order_id : String) : HandlerData :=
  match get_delivery env.deliveries order_id with
  | none =>
    match get_order env.orders order_id with
    | none =>
      { success := some false,
        message := some ("Order " ++ order_id ++ " not found.") }
    | some _ =>
      { success := some true,
        message := some ("Delivery information not yet available for order " ++ order_id ++ ".") }
  | some d =>
    { success := some true,
      message := some ("Order " ++ order_id ++ " is currently " ++ d.current_status ++ ". Estimated delivery: " ++ d.estimated_delivery ++ ". Tracking number: " ++ d.tracking_number ++ " (" ++ d.carrier ++ ")") }

/-! ### Orchestrator (`orchestrator.py`) -/

/-- The orchestrator's `max_history` (set to 10 in `__init__`). -/
def max_history : ℕ := 10

/-- The response record returned to the caller (`ChatResponse`), minus
the free-form `metadata` map, which no verified property constrains. -/
structure ChatResponse where
  response : String
  intent : String
  sources : Option (List String)
deriving DecidableEq

/-- The apology emitted when `process_message` catches an exception. -/
def error_apology : String :=
  "I apologize, but I encountered an error processing your request. Please try again or rephrase your question."

/-- `_handle_product_info`: RAG retrieval with `top_k=3`; the texts
become the context, the metadata titles become the sources. -/
def handle_product_info (env : Env) (message : String) :
    Except String HandlerData :=
  (env.ragRetrieve message 3).map (fun results =>
    let texts := results.map (fun r => r.1)
    let sources := results.map (fun r => r.2.1.title)
    { context := some (if texts.isEmpty then "No specific information found."
                       else String.intercalate "\n\n" texts),
      sources := some (some sources) })

/-- `_handle_general`: RAG retrieval with `top_k=2`; `sources` is the
key holding `None` when no source was collected. -/
def handle_general (env : Env) (message : String) :
    Except String HandlerData :=
  (env.ragRetrieve message 2).map (fun results =>
    let context := String.join (results.map (fun r => r.1 ++ "\n\n"))
    let sources := results.map (fun r => r.2.1.title)
    { context := some context,
      sources := some (if sources.isEmpty then none else some sources) })

/-- `_handle_order_status`: clarification when no `ORD-\d\x7b4\x7d`
identifier is present, otherwise the order lookup. -/
def handle_order_status (env : Env) (message : String) : HandlerData :=
  let order_id := extract_order_id message
  if order_id = "" then
    { success := some false,
      message := some "Please provide your order ID (format: ORD-XXXX) to check status." }
  else get_order_status env order_id

/-- `_handle_complaint`. -/
def handle_complaint (env : Env) (message : String) : HandlerData :=
  let order_id := extract_order_id message
  if order_id = "" then
    { success := some false,
      message := some "Please provide your order ID (format: ORD-XXXX) to file a complaint." }
  else create_complaint env order_id

/-- `_handle_refund`: initiation keywords steer between initiating a
refund and checking its status. -/
def handle_refund (env : Env) (message : String) : HandlerData :=
  let order_id := extract_order_id message
  if order_id = "" then
    { success := some false,
      message := some "Please provide your order ID (format: ORD-XXXX) to check refund status." }
  else if ["want", "request", "initiate", "return"].any
      (fun w => containsSub (strLower message) w) then
    initiate_refund env order_id
  else refund_status env order_id

/-- `_handle_delivery`. -/
def handle_delivery (env : Env) (message : String) : HandlerData :=
  let order_id := extract_order_id message
  if order_id = "" then
    { success := some false,
      message := some "Please provide your order ID (format: ORD-XXXX) to track delivery." }
  else delivery_status env order_id

/-- `_handle_comparison`: with fewer than two extracted product ids the
source falls back to the product-info path. -/
def handle_comparison (env : Env) (message : String) :
    Except String HandlerData :=
  let product_ids := extract_product_ids message
  if product_ids.length < 2 then handle_product_info env message
  else
    (env.compareProducts product_ids).map
      (fun comp => { comparison := some comp })

/-- `_route_to_handler`: the string-tag dispatch chain; anything not in
the six named tags falls through to the general handler. -/
def route_to_handler (env : Env) (intent message : String) :
    Except String HandlerData :=
  if intent = "product_info" then handle_product_info env message
  else if intent = "order_status" then .ok (handle_order_status env message)
  else if intent = "complaint" then .ok (handle_complaint env message)
  else if intent = "refund" then .ok (handle_refund env message)
  else if intent = "delivery" then .ok (handle_delivery env message)
  else if intent = "comparison" then handle_comparison env message
  else handle_general env message

/-- Python's `repr` of a list of strings, as interpolated into the
comparison context line. -/
def pyStrListRepr (l : List String) : String :=
  "[" ++ String.intercalate ", " (l.map (fun s => "\x27" ++ s ++ "\x27")) ++ "]"

/-- The fixed system persona of `_generate_response`. -/
def persona : String :=
  "You are a helpful AI assistant for TechPro Electronics, an electronics e-commerce company. Provide accurate, friendly, and concise responses. Use the provided context to answer questions. If you don\x27t have enough information, ask for clarification."

/-- `_generate_response`: a ready-made `message` in the result bag is
returned verbatim; a `success: False` bag without one yields the canned
refusal; otherwise a prompt is assembled from persona, recent history,
labelled context sections and the user message, and the model is
called. -/
def generate_response_text (env : Env) (message : String)
    (data : HandlerData) (hist : List Message) : String :=
  match data.message with
  | some m => m
  | none =>
    let cp1 : List String :=
      (match data.context with
       | some c => ["Relevant Information:\n" ++ c]
       | none => []) ++
      (match data.comparison with
       | some comp =>
         if comp.products.isEmpty then []
         else
           ["Comparing products: " ++ pyStrListRepr (comp.products.map (fun p => p.name)),
            "Recommendation: " ++ comp.recommendation]
       | none => [])
    if data.success = some false then "I couldn\x27t process that request."
    else
      let cp :=
        cp1 ++
        (match data.order_id with
         | some o => ["Order ID: " ++ o]
         | none => []) ++
        (match data.status with
         | some st => ["Status: " ++ st]
         | none => [])
      let history := get_recent_history hist 6
      let msgs :=
        [⟨"system", persona⟩] ++ history ++
        (if cp.isEmpty then []
         else [Message.mk "system"
            ("Context for answering:\n" ++ String.intercalate "\n\n" cp)]) ++
        [⟨"user", message⟩]
      generate_with_history env msgs

/-- `process_message`: append the user turn, classify, route, compose,
append the assistant turn.  Any exception raised inside (in this model:
a failing external call inside routing, the only modelled step that can
raise) is caught and converted to the apology response with intent
`error`; the session log is returned alongside the response. -/
def process_message (env : Env) (conv : List Message) (message : String) :
    ChatResponse × List Message :=
  let conv1 := add_to_history max_history conv "user" message
  let intent := classify_intent env message
  match route_to_handler env intent message with
  | .error _ =>
    ({ response := error_apology, intent := "error", sources := some [] }, conv1)
  | .ok data =>
    let text := generate_response_text env message data conv1
    let conv2 := add_to_history max_history conv1 "assistant" text
    ({ response := text,
       intent := intent,
       sources := match data.sources with
         | none => some []
         | some v => v }, conv2)

/-! ### Spec-side reference definitions, for comparison with the code -/

/-- The chunk-count formula asserted by the spec (§8):
`ceil((L − O) / (W − O))`, written with natural ceiling division. -/
def specChunkCount (L W O : ℕ) : ℕ := (L - O + (W - O) - 1) / (W - O)

/-- The spec's priority table for the keyword fallback, in its stated
tie-break order, paired with the keyword sets of
`_simple_intent_classification`. -/
def intent_priority : List (String × List String) :=
  [("order_status", ["order", "track", "ord-"]),
   ("complaint", ["problem", "issue", "complaint", "broken", "damaged",
                  "not working"]),
   ("refund", ["refund", "return", "money back"]),
   ("delivery", ["delivery", "shipping", "deliver", "when will"]),
   ("comparison", ["compare", "vs", "versus", "difference between"]),
   ("product_info", ["laptop", "phone", "tv", "product", "specs",
                     "features", "price"])]

/-- The spec's declarative reading of the fallback: the first category
in priority order whose keyword set matches the lower-cased message,
`general` when none does. -/
def first_matching_intent (message : String) : String :=
  match intent_priority.find?
      (fun p => p.2.any (fun w => containsSub (strLower message) w)) with
  | some p => p.1
  | none => "general"

/-! ### Concrete fixtures used by witnesses and counterexamples -/

/-- A 520-character document text. -/
def bigText : String := ⟨List.replicate 520 'a'⟩

/-- An environment with no chat client (no API key), an empty order
store and an empty index. -/
def envNoLLM : Env :=
  { client := false,
    chat := fun _ => .error "no client",
    ragRetrieve := fun _ _ => .ok [],
    compareProducts := fun _ => .error "graph database unavailable" }

/-- An environment whose chat client is configured but whose chat call
always raises. -/
def envClassifyFail : Env :=
  { client := true,
    chat := fun _ => .error "api down",
    ragRetrieve := fun _ _ => .ok [],
    compareProducts := fun _ => .error "graph database unavailable" }

/-- An environment with no chat client whose retrieval call (the
embedding service) always raises. -/
def envRagFail : Env :=
  { client := false,
    chat := fun _ => .error "no client",
    ragRetrieve := fun _ _ => .error "embedding service down",
    compareProducts := fun _ => .error "graph database unavailable" }

/-- 2·10 + 3 distinct messages, for the trimming witness. -/
def witnessMsgs : List Message :=
  (List.range 23).map (fun i => ⟨"user", toString i⟩)

/-- A well-formed two-entry store of dimension 0, on which `search`
evaluates by pure reduction. -/
def vsWitness : VectorStore :=
  { dimension := 0,
    vectors := [[], []],
    documents := ["a", "b"],
    metadata := [default, default] }

/-! ## Theorems -/

/-- C1, counterexample.  The spec's chunk-count formula
`ceil((L − O)/(W − O))` predicts 1 chunk for a document of length 3
with `W = 3`, `O = 1`, but the chunking loop produces 2 (window starts
0 and 2), so the claimed count is wrong on the code. -/
theorem chunk_count_claim_false :
    (chunkText "abc" 3 1).length = 2 ∧
    specChunkCount ("abc".data.length) 3 1 = 1 ∧
    (chunkText "abc" 3 1).length ≠ specChunkCount ("abc".data.length) 3 1 := by
  refine ⟨by decide, by decide, by decide⟩

/-- C1, amended.  For `0 ≤ O < W` and a document text of length
`L > 0`, the chunking loop produces exactly `ceil(L / (W − O))` chunks
(not `ceil((L − O)/(W − O))`), every chunk (in particular the last) has
length at most `W`, and a 520-character document with `W = 500`,
`O = 50` yields exactly the two chunks covering characters `[0, 500)`
and `[450, 520)`. -/
theorem chunk_count_amended :
    (∀ (text : String) (W O : ℕ), O < W → 0 < text.data.length →
      (chunkText text W O).length = (text.data.length + (W - O) - 1) / (W - O) ∧
      ∀ c ∈ chunkText text W O, c.data.length ≤ W) ∧
    (∀ text : String, text.data.length = 520 →
      chunkText text 500 50 =
        [⟨text.data.take 500⟩, ⟨text.data.drop 450⟩]) := by
  constructor
  · intro text W O _ _
    constructor
    · simp [chunkText, pyRange]
    · intro c hc
      simp only [chunkText, List.mem_map] at hc
      obtain ⟨i, -, rfl⟩ := hc
      show (pySlice text.data i (i + W)).length ≤ W
      have h : i + W - i = W := by omega
      simp only [pySlice, h]
      exact (List.length_take_le _ _)
  · intro text h520
    have h1 : (text.data.length + 450 - 1) / 450 = 2 := by rw [h520]
    simp only [chunkText, pyRange, h1]
    have h2 : List.range' 0 2 450 = [0, 450] := rfl
    rw [h2]
    simp only [List.map_cons, List.map_nil, pySlice, List.drop_zero]
    have h3 : text.data.take (0 + 500 - 0) = text.data.take 500 := by norm_num
    have h4 : (text.data.drop 450).take (450 + 500 - 450) = text.data.drop 450 := by
      apply List.take_of_length_le
      rw [List.length_drop, h520]
      omega
    rw [h3, h4]

/-- C1, witness for the amended theorem: the count formula at the
concrete document `"abc"` with `W = 3`, `O = 1`, and the end-to-end
520-character scenario at a concrete 520-character text. -/
theorem chunk_count_amended_witness :
    (chunkText "abc" 3 1).length = ("abc".data.length + (3 - 1) - 1) / (3 - 1) ∧
    chunkText bigText 500 50 = [⟨bigText.data.take 500⟩, ⟨bigText.data.drop 450⟩] :=
  ⟨(chunk_count_amended.1 "abc" 3 1 (by decide) (by decide)).1,
   chunk_count_amended.2 bigText (by decide)⟩

/-- C2, counterexample.  `add_documents` does not reject parallel lists
of unequal length: one embedding, one text and zero metadata entries
(lengths 1, 1, 0) are appended to the store, contradicting the claim
that nothing is appended unless the three lists have equal length. -/
theorem add_documents_claim_false :
    add_documents ⟨1, [], [], []⟩ [[0]] ["a"] [] =
      .ok ⟨1, [[0]], ["a"], []⟩ ∧
    ([[(0 : ℚ)]].length = 1 ∧ (["a"] : List String).length = 1 ∧
      ([] : List ChunkMetadata).length = 0) :=
  ⟨rfl, rfl, rfl, rfl⟩

/-- C2, amended.  `add_documents` is a no-op exactly when the
embeddings list or the texts list is empty; otherwise (for embeddings
of the store dimension) it appends all three lists to the store even
when their lengths differ, so no equal-length check is performed. -/
theorem add_documents_amended :
    ∀ (s : VectorStore) (e : List (List ℚ)) (d : List String)
      (m : List ChunkMetadata),
      ((e = [] ∨ d = []) → add_documents s e d m = .ok s) ∧
      (e ≠ [] → d ≠ [] → (∀ v ∈ e, v.length = s.dimension) →
        add_documents s e d m =
          .ok { s with vectors := s.vectors ++ e,
                       documents := s.documents ++ d,
                       metadata := s.metadata ++ m }) := by
  intro s e d m
  constructor
  · rintro (rfl | rfl) <;> simp [add_documents]
  · intro he hd hdim
    have he' : e.isEmpty = false := by simpa [List.isEmpty_iff] using he
    have hd' : d.isEmpty = false := by simpa [List.isEmpty_iff] using hd
    unfold add_documents
    rw [he', hd']
    rw [if_neg (by simp)]
    rw [if_pos (by simp only [List.all_eq_true, decide_eq_true_eq]; exact hdim)]

/-- C2, witness for the amended theorem, at a one-dimensional store:
the empty-input no-op and the mismatched-length append. -/
theorem add_documents_amended_witness :
    add_documents ⟨1, [], [], []⟩ [] ["a"] [] = .ok ⟨1, [], [], []⟩ ∧
    add_documents ⟨1, [], [], []⟩ [[0]] ["a"] [] =
      .ok ⟨1, [[0]], ["a"], []⟩ :=
  ⟨(add_documents_amended ⟨1, [], [], []⟩ [] ["a"] []).1 (Or.inl rfl),
   (add_documents_amended ⟨1, [], [], []⟩ [[0]] ["a"] []).2
     (by simp) (by simp) (by intro v hv; simp at hv; simp [hv])⟩

/-- C6.  Persisting the vector store (FAISS index file plus pickled
documents/metadata/dimension record) and restoring it yields a state
whose `search` results are identical to the pre-persistence results for
every query vector and every `top_k`. -/
theorem save_load_roundtrip :
    ∀ (s : VectorStore) (q : List ℚ) (k : ℕ),
      search (load (save s).1 (save s).2) q k = search s q k :=
  fun _ _ _ => rfl

/-- `_add_to_history` with the condition written on the lengths of the
input parts. -/
theorem add_to_history_eq (mh : ℕ) (hist : List Message) (r c : String) :
    add_to_history mh hist r c =
      if mh * 2 < hist.length + 1 then pyTail (hist ++ [⟨r, c⟩]) (mh * 2)
      else hist ++ [⟨r, c⟩] := by
  simp [add_to_history]

/-- One `_add_to_history` step preserves the "last `2·mh` messages"
invariant of the session log. -/
theorem add_to_history_takeLast (mh : ℕ) (hmh : 0 < mh)
    (l : List Message) (m : Message) :
    add_to_history mh (l.drop (l.length - mh * 2)) m.role m.content =
      (l ++ [m]).drop ((l ++ [m]).length - mh * 2) := by
  rw [add_to_history_eq]
  rcases le_or_lt (mh * 2) l.length with hK | hK
  · have hlen : (l.drop (l.length - mh * 2)).length = mh * 2 := by
      rw [List.length_drop]; omega
    rw [if_pos (by rw [hlen]; omega)]
    unfold pyTail
    rw [if_neg (by omega)]
    have e1 : (l.drop (l.length - mh * 2) ++ [Message.mk m.role m.content]).length - mh * 2
        = 1 := by
      rw [List.length_append, hlen, List.length_cons, List.length_nil]
      omega
    rw [e1]
    rw [List.drop_append_of_le_length (by rw [hlen]; omega)]
    rw [List.drop_drop]
    have e2 : (l ++ [m]).length - mh * 2 ≤ l.length := by
      rw [List.length_append, List.length_cons, List.length_nil]
      omega
    rw [List.drop_append_of_le_length e2]
    have e3 : l.length - mh * 2 + 1 = (l ++ [m]).length - mh * 2 := by
      rw [List.length_append, List.length_cons, List.length_nil]
      omega
    rw [e3]
  · have h0 : l.length - mh * 2 = 0 := by omega
    rw [h0, List.drop_zero]
    rw [if_neg (by omega)]
    have h1 : (l ++ [m]).length - mh * 2 = 0 := by
      rw [List.length_append, List.length_cons, List.length_nil]
      omega
    rw [h1, List.drop_zero]

/-- Folding a message sequence through `_add_to_history` from an empty
log keeps exactly the last `2·mh` messages, in order. -/
theorem history_fold (mh : ℕ) (hmh : 0 < mh) (msgs : List Message) :
    msgs.foldl (fun h m => add_to_history mh h m.role m.content) [] =
      msgs.drop (msgs.length - mh * 2) := by
  induction msgs using List.reverseRecOn with
  | nil => simp
  | append_singleton l m ih =>
    rw [List.foldl_concat, ih]
    exact add_to_history_takeLast mh hmh l m

/-- C7.  Appending `2·max_history + 3` messages to a fresh session log
leaves exactly the most recent `2·max_history` of them in original
order (the oldest three are discarded), and no single append ever
leaves the log longer than `2·max_history`. -/
theorem session_trimming :
    (∀ (mh : ℕ) (msgs : List Message), 0 < mh → msgs.length = 2 * mh + 3 →
      msgs.foldl (fun h m => add_to_history mh h m.role m.content) [] =
        msgs.drop 3 ∧
      (msgs.foldl (fun h m => add_to_history mh h m.role m.content) []).length =
        2 * mh) ∧
    (∀ (mh : ℕ) (hist : List Message) (role content : String), 0 < mh →
      (add_to_history mh hist role content).length ≤ 2 * mh) := by
  constructor
  · intro mh msgs hmh hlen
    have h := history_fold mh hmh msgs
    have h3 : msgs.length - mh * 2 = 3 := by omega
    rw [h3] at h
    refine ⟨h, ?_⟩
    rw [h, List.length_drop]
    omega
  · intro mh hist role content hmh
    rw [add_to_history_eq]
    split
    · unfold pyTail
      rw [if_neg (by omega)]
      rw [List.length_drop, List.length_append]
      simp only [List.length_cons, List.length_nil]
      omega
    · rw [List.length_append]
      simp only [List.length_cons, List.length_nil]
      omega

/-- C7, witness: 23 concrete messages with `max_history = 10` fold to
the last 20, and one concrete append stays within the bound. -/
theorem session_trimming_witness :
    witnessMsgs.foldl (fun h m => add_to_history 10 h m.role m.content) [] =
      witnessMsgs.drop 3 ∧
    (add_to_history 10 [] "user" "hello").length ≤ 2 * 10 :=
  ⟨(session_trimming.1 10 witnessMsgs (by decide) (by decide)).1,
   session_trimming.2 10 [] "user" "hello" (by decide)⟩

/-- C5.  Whenever `search` returns a result list, that list holds at
most `min(top_k, entryCount)` entries and its squared-Euclidean
distances are non-decreasing; an index with zero stored vectors
returns the empty result list for every query and every `top_k`
(the source returns before consulting FAISS).  On a store whose
metadata list is shorter than its kept document indices — constructible
only through the unequal-length `add_documents` inputs of the C2
correction — or on a query of the wrong dimension, the source raises
instead of returning a list, which the model mirrors with
`Except.error`. -/
theorem search_bounds_sorted :
    (∀ (s : VectorStore) (q : List ℚ) (k : ℕ)
      (res : List (String × ChunkMetadata × ℚ)),
      search s q k = .ok res →
      res.length ≤ min k s.vectors.length ∧
      List.Pairwise (fun a b => a.2.2 ≤ b.2.2) res) ∧
    (∀ (dim : ℕ) (docs : List String) (md : List ChunkMetadata)
      (q : List ℚ) (k : ℕ),
      search ⟨dim, [], docs, md⟩ q k = .ok []) := by
  constructor
  · intro s q k res h
    simp only [search] at h
    split_ifs at h with hv hd hk hall
    · injection h with h
      subst h
      exact ⟨Nat.zero_le _, List.Pairwise.nil⟩
    · injection h with h
      subst h
      constructor
      · rw [List.length_map]
        calc (((List.insertionSort (fun a b : ℕ × ℚ => a.2 ≤ b.2)
                  ((s.vectors.map (sqDist q)).enum)).take
                (min k s.vectors.length)).filter
              (fun p => p.1 < s.documents.length)).length
            ≤ ((List.insertionSort (fun a b : ℕ × ℚ => a.2 ≤ b.2)
                  ((s.vectors.map (sqDist q)).enum)).take
                (min k s.vectors.length)).length := List.length_filter_le _ _
          _ ≤ min k s.vectors.length := by
              rw [List.length_take]; exact min_le_left _ _
      · rw [List.pairwise_map]
        haveI : IsTotal (ℕ × ℚ) (fun a b : ℕ × ℚ => a.2 ≤ b.2) :=
          ⟨fun a b => le_total _ _⟩
        haveI : IsTrans (ℕ × ℚ) (fun a b : ℕ × ℚ => a.2 ≤ b.2) :=
          ⟨fun a b c hab hbc => le_trans hab hbc⟩
        have hs : List.Pairwise (fun a b : ℕ × ℚ => a.2 ≤ b.2)
            (List.insertionSort (fun a b : ℕ × ℚ => a.2 ≤ b.2)
              ((s.vectors.map (sqDist q)).enum)) :=
          List.sorted_insertionSort _ _
        have hkept : List.Pairwise (fun a b : ℕ × ℚ => a.2 ≤ b.2)
            (((List.insertionSort (fun a b : ℕ × ℚ => a.2 ≤ b.2)
                  ((s.vectors.map (sqDist q)).enum)).take
                (min k s.vectors.length)).filter
              (fun p => p.1 < s.documents.length)) :=
          List.Pairwise.sublist
            ((List.filter_sublist _).trans (List.take_sublist _ _)) hs
        exact hkept.imp (fun h => h)
  · intro dim docs md q k
    rfl

/-- C5, witness: `search` on a concrete two-entry store returns one
result for `top_k = 1`, and the theorem's bounds hold for it. -/
theorem search_bounds_sorted_witness :
    [("a", (default : ChunkMetadata), (0 : ℚ))].length ≤
      min 1 vsWitness.vectors.length ∧
    List.Pairwise (fun a b => a.2.2 ≤ b.2.2)
      [("a", (default : ChunkMetadata), (0 : ℚ))] :=
  search_bounds_sorted.1 vsWitness [] 1
    [("a", (default : ChunkMetadata), (0 : ℚ))] rfl

/-- C8.  The keyword fallback is a deterministic function of the
message, and it computes exactly the first category in the spec's
priority order (order → complaint → refund → delivery → comparison →
product_info → general) whose keyword set matches the lower-cased
message. -/
theorem keyword_fallback_priority :
    (∀ m1 m2 : String, m1 = m2 →
      simple_intent_classification m1 = simple_intent_classification m2) ∧
    ∀ message : String,
      simple_intent_classification message = first_matching_intent message := by
  constructor
  · intro m1 m2 h
    rw [h]
  · intro message
    cases h1 : (["order", "track", "ord-"].any
        fun w => containsSub (strLower message) w) <;>
    cases h2 : (["problem", "issue", "complaint", "broken", "damaged",
        "not working"].any fun w => containsSub (strLower message) w) <;>
    cases h3 : (["refund", "return", "money back"].any
        fun w => containsSub (strLower message) w) <;>
    cases h4 : (["delivery", "shipping", "deliver", "when will"].any
        fun w => containsSub (strLower message) w) <;>
    cases h5 : (["compare", "vs", "versus", "difference between"].any
        fun w => containsSub (strLower message) w) <;>
    cases h6 : (["laptop", "phone", "tv", "product", "specs", "features",
        "price"].any fun w => containsSub (strLower message) w) <;>
    simp [simple_intent_classification, first_matching_intent,
      intent_priority, List.find?, h1, h2, h3, h4, h5, h6]

/-- C8, witness: the determinism conjunct applied at a concrete
message. -/
theorem keyword_fallback_priority_witness :
    simple_intent_classification "hello" = simple_intent_classification "hello" :=
  keyword_fallback_priority.1 "hello" "hello" rfl

/-- After any `_add_to_history`, the appended message is the last entry
of the log (the trim only discards from the front). -/
theorem add_to_history_getLast (mh : ℕ) (hmh : 0 < mh)
    (hist : List Message) (r c : String) :
    (add_to_history mh hist r c).getLast? = some ⟨r, c⟩ := by
  rw [add_to_history_eq]
  split
  · unfold pyTail
    rw [if_neg (by omega)]
    have hle : (hist ++ [Message.mk r c]).length - mh * 2 ≤ hist.length := by
      rw [List.length_append, List.length_cons, List.length_nil]
      omega
    rw [List.drop_append_of_le_length hle, List.getLast?_concat]
  · rw [List.getLast?_concat]

/-- The left-to-right scan of `extract_order_id` returns the match at
the least start position (and `""` when no position matches). -/
theorem extractOrderIdAux_eq : ∀ cs : List Char,
    extractOrderIdAux cs =
      ((List.range cs.length).filterMap
        (fun i => ordMatchAt (cs.drop i))).headD "" := by
  intro cs
  induction cs with
  | nil => rfl
  | cons c rest ih =>
    rw [List.length_cons, List.range_succ_eq_map, List.filterMap_cons]
    simp only [List.drop_zero]
    cases hm : ordMatchAt (c :: rest) with
    | some s =>
      simp only [extractOrderIdAux, hm, List.headD_cons]
    | none =>
      simp only [extractOrderIdAux, hm]
      rw [List.filterMap_map]
      exact ih

/-- C3.  When the chat client is present but the classification call
raises, `generate_response` swallows the exception and returns the
fallback string, which is not a valid intent tag, so the intent is
coerced to `general`; processing then continues through routing and
composition, recording an assistant turn (no early termination). -/
theorem classify_failure_defaults_general :
    ∀ (env : Env) (conv : List Message) (message err : String)
      (rs : List (String × ChunkMetadata × ℚ)),
      env.client = true →
      env.chat (classify_messages message) = .error err →
      env.ragRetrieve message 2 = .ok rs →
      classify_intent env message = "general" ∧
      (process_message env conv message).1.intent = "general" ∧
      ∃ t, (process_message env conv message).2 =
        add_to_history max_history
          (add_to_history max_history conv "user" message) "assistant" t := by
  intro env conv message err rs hclient hchat hrag
  have hgen : generate_response env message none (some classify_system_message)
      = fallback_response := by
    unfold generate_response
    rw [hclient]
    show (match env.chat (classify_messages message) with
          | .ok r => strStrip r
          | .error _ => fallback_response) = fallback_response
    rw [hchat]
  have hclass : classify_intent env message = "general" := by
    unfold classify_intent
    rw [hclient]
    show (if valid_intents.contains (strLower (strStrip
            (generate_response env message none (some classify_system_message))))
            = true
          then strLower (strStrip
            (generate_response env message none (some classify_system_message)))
          else "general") = "general"
    rw [hgen]
    decide
  have hroute : route_to_handler env "general" message =
      .ok { context := some (String.join (rs.map (fun r => r.1 ++ "\n\n"))),
            sources := some (if (rs.map (fun r => r.2.1.title)).isEmpty then none
                             else some (rs.map (fun r => r.2.1.title))) } := by
    unfold route_to_handler
    rw [if_neg (by decide), if_neg (by decide), if_neg (by decide),
        if_neg (by decide), if_neg (by decide), if_neg (by decide)]
    unfold handle_general
    rw [hrag]
    rfl
  refine ⟨hclass, ?_, ?_⟩
  · simp only [process_message]
    rw [hclass, hroute]
  · refine ⟨generate_response_text env message
      { context := some (String.join (rs.map (fun r => r.1 ++ "\n\n"))),
        sources := some (if (rs.map (fun r => r.2.1.title)).isEmpty then none
                         else some (rs.map (fun r => r.2.1.title))) }
      (add_to_history max_history conv "user" message), ?_⟩
    simp only [process_message]
    rw [hclass, hroute]

/-- C3, witness: a concrete environment whose chat call always raises;
the intent at the concrete message `"hi"` is `general`. -/
theorem classify_failure_defaults_general_witness :
    classify_intent envClassifyFail "hi" = "general" ∧
    (process_message envClassifyFail [] "hi").1.intent = "general" :=
  ⟨(classify_failure_defaults_general envClassifyFail [] "hi" "api down" []
      rfl rfl rfl).1,
   (classify_failure_defaults_general envClassifyFail [] "hi" "api down" []
      rfl rfl rfl).2.1⟩

/-- C4.  A handler result bag carrying a `message` string is returned
verbatim by `_generate_response`, whatever the environment (so the
generative model is never consulted); and the end-to-end scenario: the
message `"Where is my order ORD-1234?"` against a store with no such
order produces exactly the handler's not-found message with intent
`order_status`. -/
theorem handler_message_verbatim :
    (∀ (env : Env) (message : String) (data : HandlerData)
      (hist : List Message) (m : String),
      data.message = some m →
      generate_response_text env message data hist = m) ∧
    (∀ (env : Env) (conv : List Message),
      env.client = false →
      get_order env.orders "ORD-1234" = none →
      (process_message env conv "Where is my order ORD-1234?").1.response =
        "Order ORD-1234 not found. Please check the order ID." ∧
      (process_message env conv "Where is my order ORD-1234?").1.intent =
        "order_status") := by
  constructor
  · intro env message data hist m hm
    unfold generate_response_text
    rw [hm]
  · intro env conv hclient horder
    have hclass : classify_intent env "Where is my order ORD-1234?" =
        "order_status" := by
      unfold classify_intent
      rw [hclient]
      show simple_intent_classification "Where is my order ORD-1234?" =
        "order_status"
      decide
    have hoid : extract_order_id "Where is my order ORD-1234?" = "ORD-1234" := by
      decide
    have hroute : route_to_handler env "order_status"
        "Where is my order ORD-1234?" =
        .ok { success := some false,
              message := some "Order ORD-1234 not found. Please check the order ID." } := by
      unfold route_to_handler
      rw [if_neg (by decide), if_pos rfl]
      unfold handle_order_status
      simp only [hoid]
      rw [if_neg (by decide)]
      unfold get_order_status
      rw [horder]
      rfl
    constructor
    · simp only [process_message]
      rw [hclass, hroute]
      rfl
    · simp only [process_message]
      rw [hclass, hroute]

/-- C4, witness: the verbatim conjunct at a concrete bag, and the
end-to-end scenario at a concrete empty order store. -/
theorem handler_message_verbatim_witness :
    generate_response_text envNoLLM "hi" { message := some "All good." } [] =
      "All good." ∧
    (process_message envNoLLM [] "Where is my order ORD-1234?").1.response =
      "Order ORD-1234 not found. Please check the order ID." :=
  ⟨handler_message_verbatim.1 envNoLLM "hi" { message := some "All good." } []
      "All good." rfl,
   (handler_message_verbatim.2 envNoLLM [] rfl rfl).1⟩

/-- C9.  When routing raises, `process_message` catches the exception
and returns the apology with intent `error`; no assistant turn is
appended, so the stored session log is exactly the log after the user
turn and ends with that user message. -/
theorem failed_step_keeps_user_turn :
    ∀ (env : Env) (conv : List Message) (message err : String),
      route_to_handler env (classify_intent env message) message = .error err →
      process_message env conv message =
        ({ response := error_apology, intent := "error", sources := some [] },
          add_to_history max_history conv "user" message) ∧
      (process_message env conv message).2.getLast? =
        some ⟨"user", message⟩ := by
  intro env conv message err hroute
  have h1 : process_message env conv message =
      ({ response := error_apology, intent := "error", sources := some [] },
        add_to_history max_history conv "user" message) := by
    simp only [process_message]
    rw [hroute]
  refine ⟨h1, ?_⟩
  rw [h1]
  exact add_to_history_getLast max_history (by decide) conv "user" message

/-- C9, witness: a concrete environment whose retrieval call raises on
the concrete message `"hello"`. -/
theorem failed_step_keeps_user_turn_witness :
    process_message envRagFail [] "hello" =
      ({ response := error_apology, intent := "error", sources := some [] },
        add_to_history max_history [] "user" "hello") :=
  (failed_step_keeps_user_turn envRagFail [] "hello" "embedding service down"
    rfl).1

/-- C10.  `extract_order_id` returns the match of `ORD-` followed by
four digits at the least start position (and `""` when none exists);
the match is case-sensitive, so `"ord-1234"` extracts nothing, while
the lower-case keyword `"ord-"` still classifies such a message as
`order_status` in the keyword fallback, so the routed handler
short-circuits to the clarification prompt. -/
theorem extract_order_id_first_match :
    (∀ message : String,
      extract_order_id message = (ordIdMatches message).headD "") ∧
    extract_order_id "ord-1234" = "" ∧
    simple_intent_classification "ord-1234" = "order_status" ∧
    ∀ (env : Env) (conv : List Message), env.client = false →
      (process_message env conv "ord-1234").1.response =
        "Please provide your order ID (format: ORD-XXXX) to check status." ∧
      (process_message env conv "ord-1234").1.intent = "order_status" := by
  refine ⟨?_, by decide, by decide, ?_⟩
  · intro message
    exact extractOrderIdAux_eq message.data
  · intro env conv hclient
    have hclass : classify_intent env "ord-1234" = "order_status" := by
      unfold classify_intent
      rw [hclient]
      show simple_intent_classification "ord-1234" = "order_status"
      decide
    have hroute : route_to_handler env "order_status" "ord-1234" =
        .ok { success := some false,
              message := some "Please provide your order ID (format: ORD-XXXX) to check status." } := by
      unfold route_to_handler
      rw [if_neg (by decide), if_pos rfl]
      unfold handle_order_status
      rw [if_pos (by decide)]
    constructor
    · simp only [process_message]
      rw [hclass, hroute]
      rfl
    · simp only [process_message]
      rw [hclass, hroute]

/-- C10, witness: the clarification outcome at a concrete environment
with no chat client. -/
theorem extract_order_id_first_match_witness :
    (process_message envNoLLM [] "ord-1234").1.response =
      "Please provide your order ID (format: ORD-XXXX) to check status." ∧
    (process_message envNoLLM [] "ord-1234").1.intent = "order_status" :=
  extract_order_id_first_match.2.2.2 envNoLLM [] rfl

end Marketplace
